import Mathlib

/-!
Verification of the Wii Fit save-file decoder and sync-session protocol
(sources: wii-app/source/wiifit_reader.c, json_builder.c, main.c, network.c).

Shallow embedding conventions:
* A byte buffer is a function `Nat → Nat`; every read goes through `byteAt`,
  which truncates to a byte (`% 256`), mirroring the C `u8` type.
* C strings are modelled as Lean strings with one `Char` per byte (all strings
  that matter to the claims are ASCII).
* `snprintf`-based building is modelled by an explicit builder state that
  tracks the write cursor, the valid content, the highest byte index touched
  (including the terminating NUL) and the overflow flag.
* `mktime`/`localtime` round-tripping is not modelled: a decoded date is kept
  as the `struct tm` field vector that the C code fills before calling
  `mktime`.  No claim below depends on calendar normalisation.
* The fixed-point `float` fields (weight, BMI, balance) are modelled as the
  scaled integers that the save file stores (tenths / hundredths); the C
  prints them back with `%.1f` / `%.2f`, which is exact for these values.
-/

-- ===== Constants (wiifit_reader.h) =====

def MAX_PROFILES : Nat := 8

def MAX_MEASUREMENTS : Nat := 1024

def PROFILE_SIZE : Nat := 0x9289

def PROFILE_NAME_OFFSET : Nat := 0x08

def PROFILE_HEIGHT_OFFSET : Nat := 0x1F

def PROFILE_DOB_OFFSET : Nat := 0x20

def MEASUREMENT_RECORD_SIZE : Nat := 21

def ACTUAL_MEASUREMENT_OFFSET : Nat := 0x3661

def WIIFIT_SUCCESS : Int := 0

def WIIFIT_ERR_PARSE : Int := -4

-- ===== Byte-field codec (wiifit_reader.c, read_be16 / read_be32) =====

/-- One byte of the buffer, truncated to `u8` as in C. -/
def byteAt (d : Nat → Nat) (off : Nat) : Nat := d off % 256

/-- Big-endian 16-bit read: `(ptr[0] << 8) | ptr[1]`. -/
def read_be16 (d : Nat → Nat) (off : Nat) : Nat :=
  byteAt d off <<< 8 ||| byteAt d (off + 1)

/-- Big-endian 32-bit read: `(ptr[0]<<24)|(ptr[1]<<16)|(ptr[2]<<8)|ptr[3]`. -/
def read_be32 (d : Nat → Nat) (off : Nat) : Nat :=
  byteAt d off <<< 24 ||| byteAt d (off + 1) <<< 16 |||
    byteAt d (off + 2) <<< 8 ||| byteAt d (off + 3)

-- ===== Packed-date decoding (wiifit_reader.c, parse_wiifit_date) =====

/-- Raw year field: bits 30-20 (11 bits). -/
def rawYear (p : Nat) : Nat := p >>> 20 &&& 0x7FF

/-- Raw month field: bits 19-16 (4 bits), zero-indexed in the file, plus 1. -/
def rawMonth (p : Nat) : Nat := (p >>> 16 &&& 0xF) + 1

/-- Raw day field: bits 15-11 (5 bits). -/
def rawDay (p : Nat) : Nat := p >>> 11 &&& 0x1F

/-- Raw hour field: bits 10-6 (5 bits). -/
def rawHour (p : Nat) : Nat := p >>> 6 &&& 0x1F

/-- Raw minute field: bits 5-0 (6 bits). -/
def rawMinute (p : Nat) : Nat := p &&& 0x3F

/-- The `struct tm` field vector filled by `parse_wiifit_date` before
`mktime`; seconds are always zero (not stored in the format). -/
structure TmDate where
  year : Nat
  month : Nat
  day : Nat
  hour : Nat
  minute : Nat
  second : Nat
deriving DecidableEq

/-- Model of `parse_wiifit_date`: extract the five bitfields, then apply the
sanity checks exactly as written in the C (a comparison with 0 on a `Nat`
field mirrors the vacuous `< 0` test on a nonnegative extracted `int`). -/
def parse_wiifit_date (p : Nat) : TmDate :=
  { year := if rawYear p < 2006 ∨ 2030 < rawYear p then 2020 else rawYear p
    month := if rawMonth p < 1 ∨ 12 < rawMonth p then 1 else rawMonth p
    day := if rawDay p < 1 ∨ 31 < rawDay p then 1 else rawDay p
    hour := if rawHour p < 0 ∨ 23 < rawHour p then 0 else rawHour p
    minute := if rawMinute p < 0 ∨ 59 < rawMinute p then 0 else rawMinute p
    second := 0 }

-- ===== UTF-16BE to UTF-8 transcoding (wiifit_reader.c, utf16be_to_utf8) =====

/-- Loop body of `utf16be_to_utf8`.  The fuel argument decreases in lockstep
with the source index `i`, so exhausting it is exactly the `i < max_chars`
bound; `j` is the output cursor, checked against 23 before each iteration as
in the C.  The produced list is the sequence of content bytes stored through
`dst[j++]`; the terminating NUL is accounted separately. -/
def utf16Go (src : Nat → Nat) : Nat → Nat → Nat → List Nat
  | 0, _, _ => []
  | fuel + 1, i, j =>
    if j < 23 then
      let ch := byteAt src (i * 2) <<< 8 ||| byteAt src (i * 2 + 1)
      if ch = 0 then []
      else if ch < 0x80 then ch :: utf16Go src fuel (i + 1) (j + 1)
      else if ch < 0x800 then
        (0xC0 ||| ch >>> 6) :: (0x80 ||| (ch &&& 0x3F)) ::
          utf16Go src fuel (i + 1) (j + 2)
      else
        (0xE0 ||| ch >>> 12) :: (0x80 ||| (ch >>> 6 &&& 0x3F)) ::
          (0x80 ||| (ch &&& 0x3F)) :: utf16Go src fuel (i + 1) (j + 3)
    else []

/-- Content bytes produced by `utf16be_to_utf8 (src, dst, max_chars)`. -/
def utf16be_to_utf8 (src : Nat → Nat) (max_chars : Nat) : List Nat :=
  utf16Go src max_chars 0 0

/-- Total number of bytes the C function stores into `dst`: one byte per
content byte plus the final `dst[j] = 0` terminator. -/
def utf16_bytes_written (src : Nat → Nat) (max_chars : Nat) : Nat :=
  (utf16be_to_utf8 src max_chars).length + 1

-- ===== Measurement decoding (wiifit_reader.c, parse_profile loop) =====

/-- One body-test record as materialised by the C code.  The C stores
`weight_raw / 10.0f` etc.; the model keeps the exact scaled integers
(tenths for weight and balance, hundredths for BMI) as `Int` so that the
JSON builder's sign sanitisation can be expressed. -/
structure WiiFitMeasurement where
  timestamp : TmDate
  weight_dg : Int
  bmi_c : Int
  balance_d : Int
  has_extended_data : Bool
deriving DecidableEq

/-- Byte offset of measurement slot `i` inside the profile slice. -/
def measSlotOff (i : Nat) : Nat :=
  ACTUAL_MEASUREMENT_OFFSET + i * MEASUREMENT_RECORD_SIZE

/-- The raw big-endian weight field of slot `i` (validity oracle). -/
def rawWeightAt (d : Nat → Nat) (i : Nat) : Nat :=
  read_be16 d (measSlotOff i + 4)

/-- The record materialised from slot `i`. -/
def mkMeasurementAt (d : Nat → Nat) (i : Nat) : WiiFitMeasurement :=
  { timestamp := parse_wiifit_date (read_be32 d (measSlotOff i))
    weight_dg := (rawWeightAt d i : Int)
    bmi_c := (read_be16 d (measSlotOff i + 6) : Int)
    balance_d := (read_be16 d (measSlotOff i + 8) : Int)
    has_extended_data := false }

/-- The measurement loop of `parse_profile`.  Returns the materialised
records together with the list of byte indices the loop reads from the
profile slice (four timestamp bytes and three 16-bit fields per accepted
record; only the two weight bytes for the record that stops the scan).
Fuel decreases with the slot index, bounding the loop by `MAX_MEASUREMENTS`. -/
def measAux (d : Nat → Nat) : Nat → Nat → List WiiFitMeasurement × List Nat
  | 0, _ => ([], [])
  | fuel + 1, i =>
    if PROFILE_SIZE < measSlotOff i + MEASUREMENT_RECORD_SIZE then ([], [])
    else if rawWeightAt d i < 300 ∨ 1500 < rawWeightAt d i then
      ([], [measSlotOff i + 4, measSlotOff i + 5])
    else
      let rest := measAux d fuel (i + 1)
      (mkMeasurementAt d i :: rest.1,
        [measSlotOff i, measSlotOff i + 1, measSlotOff i + 2, measSlotOff i + 3,
          measSlotOff i + 4, measSlotOff i + 5, measSlotOff i + 6,
          measSlotOff i + 7, measSlotOff i + 8, measSlotOff i + 9] ++ rest.2)

/-- The ordered measurement list a profile ends up with. -/
def parse_measurements (d : Nat → Nat) : List WiiFitMeasurement :=
  (measAux d MAX_MEASUREMENTS 0).1

/-- The byte indices read by the measurement loop. -/
def measurement_reads (d : Nat → Nat) : List Nat :=
  (measAux d MAX_MEASUREMENTS 0).2

-- ===== Profile and save decoding (wiifit_reader.c, parse_profile / wiifit_read_save) =====

/-- Activity categories (wiifit_reader.h); the decoder never produces any. -/
inductive WiiFitActivityType where
  | yoga
  | strength
  | aerobics
  | balance
  | training
deriving DecidableEq

/-- One activity record (format undecoded; always absent in decoder output,
but the JSON builder can serialise the struct). -/
structure WiiFitActivity where
  timestamp : TmDate
  atype : WiiFitActivityType
  name : String
  duration_min : Nat
  calories : Nat
  score : Nat
deriving DecidableEq

/-- One decoded profile (wiifit_reader.h, WiiFitProfile). -/
structure WiiFitProfile where
  name : String
  height_cm : Nat
  birth_year : Nat
  birth_month : Nat
  birth_day : Nat
  measurements : List WiiFitMeasurement
  activities : List WiiFitActivity
deriving DecidableEq

/-- Model of `parse_profile` on a profile slice `d` (the slice is the byte
function already positioned at the profile's start).  Returns `none` for an
empty slot (empty transcoded name), mirroring the early `return 0`. -/
def parse_profile (d : Nat → Nat) : Option WiiFitProfile :=
  let nameBytes := utf16be_to_utf8 (fun k => d (PROFILE_NAME_OFFSET + k)) 10
  if nameBytes = [] then none
  else
    let year_bcd := read_be16 d PROFILE_DOB_OFFSET
    some
      { name := String.mk (nameBytes.map Char.ofNat)
        height_cm := byteAt d PROFILE_HEIGHT_OFFSET
        birth_year := (year_bcd >>> 12 &&& 0xF) * 1000 + (year_bcd >>> 8 &&& 0xF) * 100 +
          (year_bcd >>> 4 &&& 0xF) * 10 + (year_bcd &&& 0xF)
        birth_month := (byteAt d (PROFILE_DOB_OFFSET + 2) >>> 4 &&& 0xF) * 10 +
          (byteAt d (PROFILE_DOB_OFFSET + 2) &&& 0xF)
        birth_day := (byteAt d (PROFILE_DOB_OFFSET + 3) >>> 4 &&& 0xF) * 10 +
          (byteAt d (PROFILE_DOB_OFFSET + 3) &&& 0xF)
        measurements := parse_measurements d
        activities := [] }

/-- The decode result for one save buffer (wiifit_reader.h, WiiFitSaveData). -/
structure WiiFitSaveData where
  profiles : List WiiFitProfile
  error_code : Int
  error_msg : String
deriving DecidableEq

/-- The profile-slot loop of `wiifit_read_save`: walk slots of `PROFILE_SIZE`
bytes, stop at the first slot that does not fit in the buffer, collect the
non-empty profiles in slot order.  Fuel decreases with the slot index,
bounding the loop by `MAX_PROFILES`. -/
def slotsGo (buf : Nat → Nat) (size : Nat) : Nat → Nat → List WiiFitProfile
  | 0, _ => []
  | fuel + 1, i =>
    if size < i * PROFILE_SIZE + PROFILE_SIZE then []
    else
      match parse_profile (fun k => buf (i * PROFILE_SIZE + k)) with
      | some p => p :: slotsGo buf size fuel (i + 1)
      | none => slotsGo buf size fuel (i + 1)

/-- Model of the parsing phase of `wiifit_read_save` on a buffer that was
read successfully (the storage-provider failure modes NOT_FOUND / READ /
MEMORY happen before this phase and are external collaborators). -/
def wiifit_read_save (buf : Nat → Nat) (size : Nat) : WiiFitSaveData :=
  let ps := slotsGo buf size MAX_PROFILES 0
  if ps = [] then
    { profiles := []
      error_code := WIIFIT_ERR_PARSE
      error_msg := "No profiles found in save file" }
  else
    { profiles := ps, error_code := WIIFIT_SUCCESS, error_msg := "" }

-- ===== JSON building (json_builder.c) =====

/-- Replacement character for an escaped control character. -/
def escChar (c : Char) : Char :=
  if c = '\n' then 'n' else if c = '\r' then 'r' else if c = '\t' then 't' else c

/-- Loop of `json_escape_string`: `j` is the output cursor; the outer guard
is `j < dst_size - 1` and each two-character escape additionally checks
`j < dst_size - 2`; when that inner check fails the character is skipped
(the `break` in the C only leaves the `switch`). -/
def escGo (ds : Nat) : List Char → Nat → List Char
  | [], _ => []
  | c :: rest, j =>
    if j + 1 < ds then
      if c = '\"' ∨ c = '\\' ∨ c = '\n' ∨ c = '\r' ∨ c = '\t' then
        if j + 2 < ds then '\\' :: escChar c :: escGo ds rest (j + 2)
        else escGo ds rest j
      else c :: escGo ds rest (j + 1)
    else []

/-- Model of `json_escape_string` into a destination of `ds` bytes. -/
def json_escape_string (s : String) (ds : Nat) : String :=
  String.mk (escGo ds s.data 0)

/-- Zero-padded two-digit decimal (`%02d`). -/
def pad2 (n : Nat) : String := if n < 10 then "0" ++ toString n else toString n

/-- Zero-padded four-digit decimal (`%04d`). -/
def pad4 (n : Nat) : String :=
  if n < 10 then "000" ++ toString n
  else if n < 100 then "00" ++ toString n
  else if n < 1000 then "0" ++ toString n
  else toString n

/-- `%.1f` of the exact value `tenths / 10`. -/
def fmt1 (tenths : Nat) : String :=
  toString (tenths / 10) ++ "." ++ toString (tenths % 10)

/-- `%.2f` of the exact value `hundredths / 100`. -/
def fmt2 (hundredths : Nat) : String :=
  toString (hundredths / 100) ++ "." ++ pad2 (hundredths % 100)

/-- `%d` of a C `int`. -/
def decStr (n : Int) : String :=
  if n < 0 then "-" ++ toString n.natAbs else toString n.natAbs

/-- Model of `format_timestamp` (strftime `%Y-%m-%dT%H:%M:%S` on the stored
field vector; calendar normalisation by `mktime`/`localtime` is not
modelled). -/
def format_timestamp (t : TmDate) : String :=
  pad4 t.year ++ "-" ++ pad2 t.month ++ "-" ++ pad2 t.day ++ "T" ++
    pad2 t.hour ++ ":" ++ pad2 t.minute ++ ":" ++ pad2 t.second

/-- Sanitisation of weight and BMI before encoding: negative values become 0
(the NaN test `x != x` has no counterpart on exact integers). -/
def sanitize_nonneg (v : Int) : Nat := if v < 0 then 0 else v.toNat

/-- Sanitisation of balance before encoding: negative values become 50.0
(500 tenths). -/
def sanitize_balance (v : Int) : Nat := if v < 0 then 500 else v.toNat

/-- Model of `activity_type_string`. -/
def activity_type_string : WiiFitActivityType → String
  | .yoga => "yoga"
  | .strength => "strength"
  | .aerobics => "aerobics"
  | .balance => "balance"
  | .training => "training"

/-- Builder state for `json_build_response`: `offset` is the C cursor,
`content` the valid bytes `buffer[0, offset)`, `hi` one past the highest
byte index written so far (including NUL terminators and truncated partial
writes by `snprintf`), `ovf` whether control has jumped to `overflow`. -/
structure BState where
  offset : Nat
  content : String
  hi : Nat
  ovf : Bool
deriving DecidableEq

/-- Result of a builder run: `ret` is the C return value, `content` the
valid bytes accumulated in the buffer, `output` the `ret`-byte prefix a
caller transmits, `hi` one past the highest byte index written. -/
structure BuildOut where
  ret : Nat
  content : String
  output : String
  hi : Nat
deriving DecidableEq

/-- Model of one `SAFE_APPEND(fmt, ...)` expansion: guard
`offset >= buffer_size - 1`, then `snprintf(buffer + offset,
buffer_size - offset, ...)`; `snprintf` returns the untruncated length `w`,
writes `min (w + 1) n` bytes, and `w >= n` jumps to `overflow`. -/
def appendB (cap : Nat) (st : BState) (s : String) : BState :=
  if st.ovf then st
  else if cap ≤ st.offset + 1 then { st with ovf := true }
  else
    let n := cap - st.offset
    let w := s.length
    let hi' := max st.hi (st.offset + min (w + 1) n)
    if n ≤ w then { st with hi := hi', ovf := true }
    else { st with offset := st.offset + w, content := st.content ++ s, hi := hi' }

/-- The single `SAFE_APPEND` string for one measurement record. -/
def measStr (m : WiiFitMeasurement) : String :=
  "\x7b\"date\":\"" ++ format_timestamp m.timestamp ++ "\",\"weight_kg\":" ++
    fmt1 (sanitize_nonneg m.weight_dg) ++ ",\"bmi\":" ++
    fmt2 (sanitize_nonneg m.bmi_c) ++ ",\"balance_percent\":" ++
    fmt1 (sanitize_balance m.balance_d) ++ "\x7d"

/-- The single `SAFE_APPEND` string opening one profile object. -/
def profileHdrStr (p : WiiFitProfile) : String :=
  "\x7b\"name\":\"" ++ json_escape_string p.name 64 ++ "\",\"height_cm\":" ++
    toString p.height_cm ++ ",\"dob\":\"" ++ pad4 p.birth_year ++ "-" ++
    pad2 p.birth_month ++ "-" ++ pad2 p.birth_day ++ "\","

/-- The single `SAFE_APPEND` string for one activity record. -/
def actStr (a : WiiFitActivity) : String :=
  "\x7b\"date\":\"" ++ format_timestamp a.timestamp ++ "\",\"type\":\"" ++
    activity_type_string a.atype ++ "\",\"name\":\"" ++
    json_escape_string a.name 64 ++ "\",\"duration_min\":" ++
    toString a.duration_min ++ ",\"calories\":" ++ toString a.calories ++
    ",\"score\":" ++ toString a.score ++ "\x7d"

/-- Body of the measurement loop: a leading comma for every record after the
first, then the record itself. -/
def appendMeas (cap : Nat) (sb : BState × Bool) (m : WiiFitMeasurement) :
    BState × Bool :=
  let st := if sb.2 then appendB cap sb.1 "," else sb.1
  (appendB cap st (measStr m), true)

/-- Body of the activity loop. -/
def appendAct (cap : Nat) (sb : BState × Bool) (a : WiiFitActivity) :
    BState × Bool :=
  let st := if sb.2 then appendB cap sb.1 "," else sb.1
  (appendB cap st (actStr a), true)

/-- Body of the profile loop of `json_build_response`. -/
def appendProfile (cap : Nat) (sb : BState × Bool) (p : WiiFitProfile) :
    BState × Bool :=
  let st1 := if sb.2 then appendB cap sb.1 "," else sb.1
  let st2 := appendB cap st1 (profileHdrStr p)
  let st3 := appendB cap st2 "\"measurements\":["
  let st4 := (p.measurements.foldl (appendMeas cap) (st3, false)).1
  let st5 := appendB cap st4 "],"
  let st6 := appendB cap st5 "\"activities\":["
  let st7 := (p.activities.foldl (appendAct cap) (st6, false)).1
  let st8 := appendB cap st7 "]\x7d"
  (st8, true)

/-- The append sequence of `json_build_response` before the return. -/
def buildCore (sd : WiiFitSaveData) (cap : Nat) : BState :=
  let st0 : BState := { offset := 0, content := "", hi := 0, ovf := false }
  let st1 := appendB cap st0 "\x7b\"version\":2,\"profiles\":["
  let st2 := (sd.profiles.foldl (appendProfile cap) (st1, false)).1
  appendB cap st2 "]\x7d"

/-- The `overflow:` handler and return of `json_build_response`: on
overflow, if `offset > 10 && buffer_size > offset + 20` the code runs
`offset = snprintf(buffer + offset, buffer_size - offset, "]}]}")` — an
assignment, so the function returns 4 while the closer sits at the old
offset. -/
def finalizeB (cap : Nat) (st : BState) : BuildOut :=
  if st.ovf then
    if 10 < st.offset ∧ st.offset + 20 < cap then
      { ret := 4
        content := st.content ++ "]\x7d]\x7d"
        output := (st.content ++ "]\x7d]\x7d").take 4
        hi := max st.hi (st.offset + 5) }
    else { ret := st.offset, content := st.content, output := st.content, hi := st.hi }
  else { ret := st.offset, content := st.content, output := st.content, hi := st.hi }

/-- Model of `json_build_response`. -/
def json_build_response (sd : WiiFitSaveData) (cap : Nat) : BuildOut :=
  finalizeB cap (buildCore sd cap)

/-- Model of `json_build_error`: one plain `snprintf` into the buffer, whose
return value is the untruncated length of the formatted string. -/
def json_build_error (code : Int) (msg : String) (cap : Nat) : BuildOut :=
  let s := "\x7b\"version\":2,\"error\":\x7b\"code\":" ++ decStr code ++
    ",\"message\":\"" ++ json_escape_string msg 256 ++ "\"\x7d\x7d"
  { ret := s.length
    content := if s.length < cap then s else s.take (cap - 1)
    output := if s.length < cap then s else s.take (cap - 1)
    hi := min (s.length + 1) cap }

/-- Bracket matcher: scans the characters, pushing opening braces/brackets
and popping a matching closer; a closer with no matching opener is ignored.
The result is `true` exactly when every opened object/array has a matching
close.  (String-literal context is not tracked; no output checked below puts
brackets inside string literals.) -/
def bracketsGo : List Char → List Char → Bool
  | [], stack => stack.isEmpty
  | c :: rest, stack =>
    if c = '\x7b' ∨ c = '[' then bracketsGo rest (c :: stack)
    else if c = '\x7d' then
      match stack with
      | t :: ts => if t = '\x7b' then bracketsGo rest ts else bracketsGo rest stack
      | [] => bracketsGo rest stack
    else if c = ']' then
      match stack with
      | t :: ts => if t = '[' then bracketsGo rest ts else bracketsGo rest stack
      | [] => bracketsGo rest stack
    else bracketsGo rest stack

/-- Whether every opened JSON object/array in `s` has a matching close. -/
def every_opened_bracket_closed (s : String) : Bool := bracketsGo s.data []

-- ===== Sync session (main.c, handle_client) =====

/-- Model of `strstr(h, n) != NULL`. -/
def hasSubstr (h n : List Char) : Bool :=
  match h with
  | [] => n.isEmpty
  | c :: t => n.isPrefixOf (c :: t) || hasSubstr t n

/-- Request recognition: the payload contains both the action-key marker and
the "sync" value marker. -/
def is_sync_request (payload : String) : Bool :=
  hasSubstr payload.data "\"action\"".data && hasSubstr payload.data "\"sync\"".data

/-- Size of the static `json_buffer` (network.h, MAX_MESSAGE_SIZE). -/
def MAX_MESSAGE_SIZE : Nat := 65536

/-- Observable outcome of the post-receive phase of `handle_client`:
whether an encoder ran, the payload handed to `network_send` (if any), and
whether `network_close_client` ran (it does on every path). -/
structure HandleResult where
  encoderInvoked : Bool
  sent : Option String
  closed : Bool
deriving DecidableEq

/-- Model of `handle_client` from the point where a request payload has
been received: marker test, encoder selection, the `json_len` guard, send,
and the unconditional close.  The ack wait only affects logging. -/
def handle_request (sd : WiiFitSaveData) (payload : String) : HandleResult :=
  if is_sync_request payload then
    let out := if sd.error_code = 0 ∧ sd.profiles ≠ [] then
        json_build_response sd MAX_MESSAGE_SIZE
      else json_build_error sd.error_code sd.error_msg MAX_MESSAGE_SIZE
    if out.ret = 0 ∨ MAX_MESSAGE_SIZE < out.ret then
      { encoderInvoked := true, sent := none, closed := true }
    else { encoderInvoked := true, sent := some out.output, closed := true }
  else { encoderInvoked := false, sent := none, closed := true }

-- ===== Network accept (network.c, network_accept_client) =====

/-- Connection-level module state of network.c (the two socket descriptors
and the informational state enum). -/
inductive NetPhase where
  | init
  | waiting
  | connected
  | receiving
  | sending
  | error
deriving DecidableEq

/-- The static state of network.c relevant to accepting. -/
structure NetworkState where
  server_socket : Int
  client_socket : Int
  phase : NetPhase
deriving DecidableEq

def NET_ERR_SOCKET : Int := -2

def NET_ERR_ACCEPT : Int := -5

/-- Errno values; only (dis)equality with the oracle result matters. -/
def EAGAIN : Int := 11

def EWOULDBLOCK : Int := 11

/-- Model of `network_accept_client`.  `acceptRet` is the oracle for the
`net_accept` system call; the third component records whether `net_accept`
was invoked at all. -/
def network_accept_client (st : NetworkState) (acceptRet : Int) :
    NetworkState × Int × Bool :=
  if st.server_socket < 0 then (st, NET_ERR_SOCKET, false)
  else if 0 ≤ st.client_socket then (st, 1, false)
  else
    let st1 := { st with client_socket := acceptRet }
    if acceptRet < 0 then
      if acceptRet = -EAGAIN ∨ acceptRet = -EWOULDBLOCK then (st1, 0, true)
      else (st1, NET_ERR_ACCEPT, true)
    else ({ st1 with phase := NetPhase.connected }, 1, true)

-- ===== Sample inputs used by witnesses and counterexamples =====

/-- The all-zero save buffer (every profile slot empty). -/
def zeroBuf : Nat → Nat := fun _ => 0

/-- A profile slice whose measurement slot 0 has raw weight 400 (bytes 0x01
0x90 at offset 0x3661+4) and whose slot 1 has raw weight 0. -/
def sampleMeasBuf : Nat → Nat := fun i =>
  if i = 13925 then 1 else if i = 13926 then 144 else 0

/-- A UTF-16BE source consisting of the code unit 0x3042 repeated without a
terminator (a CJK Mii name fills all ten name slots). -/
def cjkNameSrc : Nat → Nat := fun k => if k % 2 = 0 then 0x30 else 0x42

/-- A decoded profile with no measurements. -/
def sampleProfileA : WiiFitProfile :=
  { name := "A"
    height_cm := 170
    birth_year := 1990
    birth_month := 5
    birth_day := 10
    measurements := []
    activities := [] }

/-- A second decoded profile, used for the truncation counterexample. -/
def sampleProfileB : WiiFitProfile :=
  { name := "B"
    height_cm := 171
    birth_year := 1985
    birth_month := 12
    birth_day := 31
    measurements := []
    activities := [] }

/-- A decoded save with one profile and no measurements (full payload is
108 bytes). -/
def sampleSaveA : WiiFitSaveData :=
  { profiles := [sampleProfileA], error_code := 0, error_msg := "" }

/-- A second one-profile save, used for the truncation counterexample. -/
def sampleSaveB : WiiFitSaveData :=
  { profiles := [sampleProfileB], error_code := 0, error_msg := "" }

/-- The decode result for an all-empty save buffer. -/
def sampleErrorSave : WiiFitSaveData :=
  { profiles := [], error_code := -4, error_msg := "No profiles found in save file" }

/-- A well-formed sync request payload. -/
def syncPayload : String := "\x7b\"action\":\"sync\"\x7d"

-- ===== Theorems =====

lemma measAux_stop_spec (d : Nat → Nat) :
    ∀ (m i fuel : Nat), m < fuel → i + m ≤ 1122 →
      (∀ k, k < m → 300 ≤ rawWeightAt d (i + k) ∧ rawWeightAt d (i + k) ≤ 1500) →
      (rawWeightAt d (i + m) < 300 ∨ 1500 < rawWeightAt d (i + m)) →
      (measAux d fuel i).1 = (List.range m).map (fun k => mkMeasurementAt d (i + k)) := by
  intro m
  induction m with
  | zero =>
    intro i fuel hfuel hle _hpre hstop
    match fuel, hfuel with
    | fuel + 1, _ =>
      have hs : ¬ (PROFILE_SIZE < measSlotOff i + MEASUREMENT_RECORD_SIZE) := by
        simp only [PROFILE_SIZE, measSlotOff, MEASUREMENT_RECORD_SIZE,
          ACTUAL_MEASUREMENT_OFFSET]
        omega
      have hw : rawWeightAt d i < 300 ∨ 1500 < rawWeightAt d i := by
        simpa using hstop
      simp [measAux, hs, hw]
  | succ m ih =>
    intro i fuel hfuel hle hpre hstop
    match fuel, hfuel with
    | fuel + 1, hfuel =>
      have hs : ¬ (PROFILE_SIZE < measSlotOff i + MEASUREMENT_RECORD_SIZE) := by
        simp only [PROFILE_SIZE, measSlotOff, MEASUREMENT_RECORD_SIZE,
          ACTUAL_MEASUREMENT_OFFSET]
        omega
      have hw : ¬ (rawWeightAt d i < 300 ∨ 1500 < rawWeightAt d i) := by
        have h0 := hpre 0 (Nat.succ_pos m)
        simp only [Nat.add_zero] at h0
        omega
      have hpre' : ∀ k, k < m → 300 ≤ rawWeightAt d (i + 1 + k) ∧
          rawWeightAt d (i + 1 + k) ≤ 1500 := by
        intro k hk
        have h := hpre (k + 1) (by omega)
        rwa [show i + (k + 1) = i + 1 + k by omega] at h
      have hstop' : rawWeightAt d (i + 1 + m) < 300 ∨ 1500 < rawWeightAt d (i + 1 + m) := by
        rwa [show i + (m + 1) = i + 1 + m by omega] at hstop
      have ih' := ih (i + 1) fuel (by omega) (by omega) hpre' hstop'
      simp only [measAux, if_neg hs, if_neg hw]
      rw [ih', List.range_succ_eq_map, List.map_cons, List.map_map]
      have hfun : ((fun k => mkMeasurementAt d (i + k)) ∘ Nat.succ) =
          (fun k => mkMeasurementAt d (i + 1 + k)) := by
        funext k
        simp only [Function.comp]
        congr 1
        omega
      simp [hfun]

/-- Claim C1: for every profile slice, if slot `j` is the first measurement
slot whose raw big-endian weight is outside [300, 1500] (all earlier slots
being in range), the decoder materialises exactly the records of slots
`0, ..., j-1`, in order, and nothing at or after slot `j`. -/
theorem measurements_stop_at_first_invalid (d : Nat → Nat) (j : Nat)
    (hj : j < MAX_MEASUREMENTS)
    (hvalid : ∀ k, k < j → 300 ≤ rawWeightAt d k ∧ rawWeightAt d k ≤ 1500)
    (hstop : rawWeightAt d j < 300 ∨ 1500 < rawWeightAt d j) :
    parse_measurements d = (List.range j).map (fun k => mkMeasurementAt d k) := by
  have hj' : j < 1024 := by simpa [MAX_MEASUREMENTS] using hj
  have h := measAux_stop_spec d j 0 MAX_MEASUREMENTS
    (by simpa [MAX_MEASUREMENTS] using hj') (by omega)
    (fun k hk => by simpa using hvalid k hk) (by simpa using hstop)
  simpa [parse_measurements] using h

/-- Witness for claim C1: a slice whose slot 0 has weight 400 and slot 1 has
weight 0 yields exactly the slot-0 record. -/
theorem measurements_stop_at_first_invalid_witness :
    parse_measurements sampleMeasBuf =
      (List.range 1).map (fun k => mkMeasurementAt sampleMeasBuf k) :=
  measurements_stop_at_first_invalid sampleMeasBuf 1 (by decide) (by decide) (by decide)

lemma measAux_len_le (d : Nat → Nat) : ∀ fuel i, (measAux d fuel i).1.length ≤ fuel := by
  intro fuel
  induction fuel with
  | zero => intro i; simp [measAux]
  | succ fuel ih =>
    intro i
    simp only [measAux]
    split_ifs
    · simp
    · simp
    · simpa using Nat.succ_le_succ (ih (i + 1))

lemma measAux_reads_lt (d : Nat → Nat) :
    ∀ fuel i r, r ∈ (measAux d fuel i).2 → r < PROFILE_SIZE := by
  intro fuel
  induction fuel with
  | zero => intro i r hr; simp [measAux] at hr
  | succ fuel ih =>
    intro i r hr
    simp only [measAux] at hr
    by_cases hs : PROFILE_SIZE < measSlotOff i + MEASUREMENT_RECORD_SIZE
    · rw [if_pos hs] at hr
      simp at hr
    · rw [if_neg hs] at hr
      by_cases hw : rawWeightAt d i < 300 ∨ 1500 < rawWeightAt d i
      · rw [if_pos hw] at hr
        simp at hr
        simp only [MEASUREMENT_RECORD_SIZE] at hs
        omega
      · rw [if_neg hw] at hr
        simp at hr
        simp only [MEASUREMENT_RECORD_SIZE] at hs
        rcases hr with h | h | h | h | h | h | h | h | h | h | hrest
        · omega
        · omega
        · omega
        · omega
        · omega
        · omega
        · omega
        · omega
        · omega
        · omega
        · exact ih (i + 1) r hrest

/-- Claim C8: the measurement loop reads only byte indices inside the
profile's `PROFILE_SIZE`-byte extent (it stops before any record whose 21
bytes would cross it), materialises at most `MAX_MEASUREMENTS` records, and
every materialised record lies wholly inside the extent. -/
theorem measurements_within_extent_and_bounded (d : Nat → Nat) :
    (∀ r ∈ measurement_reads d, r < PROFILE_SIZE) ∧
    (parse_measurements d).length ≤ MAX_MEASUREMENTS ∧
    (∀ i, i < (parse_measurements d).length →
      measSlotOff i + MEASUREMENT_RECORD_SIZE ≤ PROFILE_SIZE) := by
  refine ⟨fun r hr => measAux_reads_lt d MAX_MEASUREMENTS 0 r hr,
    measAux_len_le d MAX_MEASUREMENTS 0, ?_⟩
  intro i hi
  have hlen := measAux_len_le d MAX_MEASUREMENTS 0
  simp only [parse_measurements, MAX_MEASUREMENTS] at hi hlen
  simp only [measSlotOff, MEASUREMENT_RECORD_SIZE, PROFILE_SIZE,
    ACTUAL_MEASUREMENT_OFFSET]
  omega

/-- Witness for claim C8: on the all-zero slice the loop reads the two
weight bytes of slot 0, both inside the extent. -/
theorem measurements_within_extent_and_bounded_witness : 13925 < PROFILE_SIZE :=
  (measurements_within_extent_and_bounded zeroBuf).1 13925 (by decide)

/-- Claim C6: each extracted date field outside its valid domain (year
outside [2006, 2030], month outside [1, 12], day outside [1, 31], hour above
23, minute above 59) is replaced by its fixed default (2020, 1, 1, 0, 0); an
in-domain field is kept; seconds are always zero; decoding never rejects
(the function is total). -/
theorem packed_date_clamps_fields (p : Nat) :
    (parse_wiifit_date p).year =
      (if 2006 ≤ rawYear p ∧ rawYear p ≤ 2030 then rawYear p else 2020) ∧
    (parse_wiifit_date p).month =
      (if 1 ≤ rawMonth p ∧ rawMonth p ≤ 12 then rawMonth p else 1) ∧
    (parse_wiifit_date p).day =
      (if 1 ≤ rawDay p ∧ rawDay p ≤ 31 then rawDay p else 1) ∧
    (parse_wiifit_date p).hour =
      (if rawHour p ≤ 23 then rawHour p else 0) ∧
    (parse_wiifit_date p).minute =
      (if rawMinute p ≤ 59 then rawMinute p else 0) ∧
    (parse_wiifit_date p).second = 0 := by
  refine ⟨?_, ?_, ?_, ?_, ?_, rfl⟩ <;>
    simp only [parse_wiifit_date] <;> split_ifs <;> omega

/-- Claim C7: the packed value 0x7E7455CF decodes to 2023-05-10 23:15:00. -/
theorem packed_date_reference_value :
    parse_wiifit_date 0x7E7455CF = ⟨2023, 5, 10, 23, 15, 0⟩ := by decide

/-- Claim C2: the parse phase of the save decoder yields `error_code = 0`
exactly when at least one non-empty profile was decoded, and a buffer in
which every slot is empty yields the parse-error result `WIIFIT_ERR_PARSE`
(-4) with the message "No profiles found in save file". -/
theorem save_error_code_iff_profiles (buf : Nat → Nat) (size : Nat) :
    ((wiifit_read_save buf size).error_code = 0 ↔
      (wiifit_read_save buf size).profiles ≠ []) ∧
    ((wiifit_read_save buf size).profiles = [] →
      (wiifit_read_save buf size).error_code = WIIFIT_ERR_PARSE ∧
      (wiifit_read_save buf size).error_msg = "No profiles found in save file") := by
  simp only [wiifit_read_save]
  by_cases h : slotsGo buf size MAX_PROFILES 0 = []
  · simp [h, WIIFIT_ERR_PARSE]
  · simp [h, WIIFIT_SUCCESS]

/-- Witness for claim C2: the all-zero buffer of one slot decodes to the
parse-error result. -/
theorem save_error_code_iff_profiles_witness :
    (wiifit_read_save zeroBuf PROFILE_SIZE).error_code = WIIFIT_ERR_PARSE ∧
    (wiifit_read_save zeroBuf PROFILE_SIZE).error_msg = "No profiles found in save file" :=
  (save_error_code_iff_profiles zeroBuf PROFILE_SIZE).2 (by decide)

/-- Claim C3 is refuted by the code: transcoding ten CJK code units writes
24 content bytes and then the NUL terminator at index 24 — 25 bytes in
total, one past the 24-byte `name` destination (the `j < 23` guard does not
account for multi-byte UTF-8 sequences). -/
theorem utf16_name_transcode_overflows :
    utf16_bytes_written cjkNameSrc 10 = 25 ∧
    ¬ utf16_bytes_written cjkNameSrc 10 ≤ 24 := by decide

/-- Claim C4 is refuted by the code: encoding `sampleSaveA` (full payload
108 bytes) into a 46-byte buffer overflows; the handler's
`offset = snprintf(...)` assignment makes the function return 4 even though
the buffer holds 29 meaningful bytes (and 46 bytes were touched, within
capacity). -/
theorem json_response_return_value_mismatch :
    (json_build_response sampleSaveA 65536).ret = 108 ∧
    (json_build_response sampleSaveA 46).ret = 4 ∧
    (json_build_response sampleSaveA 46).content.length = 29 ∧
    (json_build_response sampleSaveA 46).hi = 46 ∧
    ¬ (json_build_response sampleSaveA 46).ret =
        (json_build_response sampleSaveA 46).content.length := by decide

/-- Claim C5 is refuted by the code: encoding `sampleSaveB` (full payload
108 bytes) into a 30-byte buffer overflows with `offset = 25`, the closing
guard `buffer_size > offset + 20` fails, so nothing is closed and the
returned 25-byte output still has its opening brace and bracket unmatched. -/
theorem json_response_truncation_unbalanced :
    (json_build_response sampleSaveB 65536).ret = 108 ∧
    (json_build_response sampleSaveB 30).ret = 25 ∧
    (json_build_response sampleSaveB 30).output = "\x7b\"version\":2,\"profiles\":[" ∧
    every_opened_bracket_closed (json_build_response sampleSaveB 30).output = false := by
  decide

lemma string_mk_length (l : List Char) : (String.mk l).length = l.length := rfl

lemma escGo_length_le (ds : Nat) :
    ∀ (l : List Char) (j : Nat), (escGo ds l j).length ≤ ds - 1 - j := by
  intro l
  induction l with
  | nil => intro j; simp [escGo]
  | cons c rest ih =>
    intro j
    simp only [escGo]
    split_ifs
    · have := ih (j + 2)
      simp only [List.length_cons]
      omega
    · have := ih j
      omega
    · have := ih (j + 1)
      simp only [List.length_cons]
      omega
    · simp

lemma json_escape_length_le (s : String) (ds : Nat) :
    (json_escape_string s ds).length ≤ ds - 1 := by
  have h := escGo_length_le ds s.data 0
  simpa [json_escape_string, string_mk_length] using h

lemma decStr_length_le (c : Int) (h1 : -9 ≤ c) (h2 : c ≤ 0) :
    (decStr c).length ≤ 2 := by
  interval_cases c <;> decide

lemma json_build_error_ret_bounds (code : Int) (msg : String)
    (h1 : -9 ≤ code) (h2 : code ≤ 0) :
    0 < (json_build_error code msg MAX_MESSAGE_SIZE).ret ∧
    (json_build_error code msg MAX_MESSAGE_SIZE).ret ≤ MAX_MESSAGE_SIZE := by
  have hd := decStr_length_le code h1 h2
  have he := json_escape_length_le msg 256
  have h29 : ("\x7b\"version\":2,\"error\":\x7b\"code\":" : String).length = 29 := rfl
  have h12 : (",\"message\":\"" : String).length = 12 := rfl
  have h3 : ("\"\x7d\x7d" : String).length = 3 := rfl
  simp only [json_build_error, String.length_append, MAX_MESSAGE_SIZE, h29, h12, h3]
  omega

/-- Builder states reachable in `json_build_response` after the fixed
25-byte header under the 65536-byte buffer. -/
def goodB (st : BState) : Prop := 25 ≤ st.offset ∧ st.offset < 65536

/-- States of the loop folds, paired with the comma flag. -/
def goodSB (sb : BState × Bool) : Prop := goodB sb.1

lemma appendB_good (st : BState) (s : String) (h : goodB st) :
    goodB (appendB 65536 st s) := by
  obtain ⟨ha, hb⟩ := h
  simp only [appendB, goodB]
  split_ifs with h1 h2 h3
  · exact ⟨ha, hb⟩
  · exact ⟨ha, hb⟩
  · exact ⟨ha, hb⟩
  · show 25 ≤ st.offset + s.length ∧ st.offset + s.length < 65536
    omega

lemma foldl_preserves {α β : Type} (P : α → Prop) (f : α → β → α)
    (hf : ∀ a b, P a → P (f a b)) :
    ∀ (l : List β) (a : α), P a → P (l.foldl f a) := by
  intro l
  induction l with
  | nil => intro a ha; simpa using ha
  | cons x xs ih =>
    intro a ha
    rw [List.foldl_cons]
    exact ih _ (hf a x ha)

lemma appendMeas_good (sb : BState × Bool) (m : WiiFitMeasurement)
    (h : goodSB sb) : goodSB (appendMeas 65536 sb m) := by
  have h1 : goodB (if sb.2 then appendB 65536 sb.1 "," else sb.1) := by
    split_ifs
    · exact appendB_good _ _ h
    · exact h
  simpa only [appendMeas, goodSB] using appendB_good _ _ h1

lemma appendAct_good (sb : BState × Bool) (a : WiiFitActivity)
    (h : goodSB sb) : goodSB (appendAct 65536 sb a) := by
  have h1 : goodB (if sb.2 then appendB 65536 sb.1 "," else sb.1) := by
    split_ifs
    · exact appendB_good _ _ h
    · exact h
  simpa only [appendAct, goodSB] using appendB_good _ _ h1

lemma appendProfile_good (sb : BState × Bool) (p : WiiFitProfile)
    (h : goodSB sb) : goodSB (appendProfile 65536 sb p) := by
  have h1 : goodB (if sb.2 then appendB 65536 sb.1 "," else sb.1) := by
    split_ifs
    · exact appendB_good _ _ h
    · exact h
  have h2 := appendB_good _ (profileHdrStr p) h1
  have h3 := appendB_good _ "\"measurements\":[" h2
  have h4 : goodSB (p.measurements.foldl (appendMeas 65536)
      (appendB 65536 (appendB 65536 (if sb.2 then appendB 65536 sb.1 "," else sb.1)
        (profileHdrStr p)) "\"measurements\":[", false)) :=
    foldl_preserves goodSB (appendMeas 65536) appendMeas_good p.measurements _ h3
  have h5 := appendB_good _ "]," h4
  have h6 := appendB_good _ "\"activities\":[" h5
  have h7 : goodSB (p.activities.foldl (appendAct 65536) (_, false)) :=
    foldl_preserves goodSB (appendAct 65536) appendAct_good p.activities _ h6
  have h8 := appendB_good _ "]\x7d" h7
  simpa only [appendProfile, goodSB] using h8

lemma buildCore_good (sd : WiiFitSaveData) : goodB (buildCore sd 65536) := by
  have hstart : goodB (appendB 65536
      { offset := 0, content := "", hi := 0, ovf := false }
      "\x7b\"version\":2,\"profiles\":[") := by
    constructor <;> decide
  have hfold : goodSB (sd.profiles.foldl (appendProfile 65536)
      (appendB 65536 { offset := 0, content := "", hi := 0, ovf := false }
        "\x7b\"version\":2,\"profiles\":[", false)) :=
    foldl_preserves goodSB (appendProfile 65536) appendProfile_good sd.profiles _ hstart
  simpa only [buildCore, goodSB] using appendB_good _ "]\x7d" hfold

lemma json_build_response_ret_bounds (sd : WiiFitSaveData) :
    0 < (json_build_response sd MAX_MESSAGE_SIZE).ret ∧
    (json_build_response sd MAX_MESSAGE_SIZE).ret ≤ MAX_MESSAGE_SIZE := by
  obtain ⟨ha, hb⟩ := buildCore_good sd
  simp only [json_build_response, finalizeB, MAX_MESSAGE_SIZE]
  split_ifs <;> simp <;> omega

/-- Claim C9: with the save-decode result the program can actually hold
(reader error codes lie in [-9, 0]), the session sends a response if and
only if the received payload contains both the action-key marker and the
"sync" value marker; on any other payload it invokes no encoder and sends
nothing; in every case it closes the client connection. -/
theorem session_sends_iff_sync (sd : WiiFitSaveData) (payload : String)
    (h1 : -9 ≤ sd.error_code) (h2 : sd.error_code ≤ 0) :
    ((handle_request sd payload).sent.isSome = is_sync_request payload) ∧
    (is_sync_request payload = false →
      handle_request sd payload =
        { encoderInvoked := false, sent := none, closed := true }) ∧
    (handle_request sd payload).closed = true := by
  cases hsync : is_sync_request payload with
  | false => simp [handle_request, hsync]
  | true =>
    have hbounds : 0 < (if sd.error_code = 0 ∧ sd.profiles ≠ [] then
          json_build_response sd MAX_MESSAGE_SIZE
        else json_build_error sd.error_code sd.error_msg MAX_MESSAGE_SIZE).ret ∧
        (if sd.error_code = 0 ∧ sd.profiles ≠ [] then
          json_build_response sd MAX_MESSAGE_SIZE
        else json_build_error sd.error_code sd.error_msg MAX_MESSAGE_SIZE).ret ≤
          MAX_MESSAGE_SIZE := by
      split_ifs
      · exact json_build_response_ret_bounds sd
      · exact json_build_error_ret_bounds sd.error_code sd.error_msg h1 h2
    have hno : ¬ ((if sd.error_code = 0 ∧ sd.profiles ≠ [] then
          json_build_response sd MAX_MESSAGE_SIZE
        else json_build_error sd.error_code sd.error_msg MAX_MESSAGE_SIZE).ret = 0 ∨
        MAX_MESSAGE_SIZE < (if sd.error_code = 0 ∧ sd.profiles ≠ [] then
          json_build_response sd MAX_MESSAGE_SIZE
        else json_build_error sd.error_code sd.error_msg MAX_MESSAGE_SIZE).ret) := by
      obtain ⟨hp, hq⟩ := hbounds
      omega
    simp [handle_request, hsync, hno]

/-- Witness for claim C9: the empty-save error result served to a sync
request payload. -/
theorem session_sends_iff_sync_witness :
    ((handle_request sampleErrorSave syncPayload).sent.isSome =
      is_sync_request syncPayload) ∧
    (is_sync_request syncPayload = false →
      handle_request sampleErrorSave syncPayload =
        { encoderInvoked := false, sent := none, closed := true }) ∧
    (handle_request sampleErrorSave syncPayload).closed = true :=
  session_sends_iff_sync sampleErrorSave syncPayload (by decide) (by decide)

/-- Claim C10 as stated is refuted at one state: with an existing client
socket (0) but a closed listening socket (-1) — reachable by calling
`network_start_server` again while a client is connected and having the
socket creation fail — the function returns NET_ERR_SOCKET (-2), not 1
(though it still does not invoke accept). -/
theorem accept_with_closed_server_counterexample :
    0 ≤ (⟨-1, 0, NetPhase.waiting⟩ : NetworkState).client_socket ∧
    (network_accept_client ⟨-1, 0, NetPhase.waiting⟩ 5).2.1 = NET_ERR_SOCKET ∧
    ¬ (network_accept_client ⟨-1, 0, NetPhase.waiting⟩ 5).2.1 = 1 := by decide

/-- Claim C10 amended: whenever a client socket already exists,
`network_accept_client` never invokes `net_accept` and leaves the state
unchanged — so at most one client connection exists — and it returns 1
provided the listening socket is also open. -/
theorem accept_noop_when_client_exists (st : NetworkState) (acceptRet : Int)
    (h : 0 ≤ st.client_socket) :
    (network_accept_client st acceptRet).2.2 = false ∧
    (network_accept_client st acceptRet).1 = st ∧
    (0 ≤ st.server_socket → (network_accept_client st acceptRet).2.1 = 1) := by
  by_cases hs : st.server_socket < 0
  · refine ⟨?_, ?_, ?_⟩ <;> simp [network_accept_client, hs]
  · refine ⟨?_, ?_, ?_⟩ <;> simp [network_accept_client, hs, h]

/-- Witness for the amended claim C10 at a concrete open state. -/
theorem accept_noop_when_client_exists_witness :
    (network_accept_client ⟨3, 0, NetPhase.connected⟩ 7).2.1 = 1 :=
  (accept_noop_when_client_exists ⟨3, 0, NetPhase.connected⟩ 7 (by decide)).2.2
    (by decide)
